import Mathlib

/-!
Verification development for the DERA WFS download scripts
(`download_dera.py`, `download_dera_actions.py`).

The Python sources are shallowly embedded: JSON feature-collection
documents become the `FCDoc` structure (with `Option` fields standing
for possibly-absent JSON keys), HTTP interactions become explicit
oracles (`Nat → AttemptOutcome` for per-attempt outcomes of
`requests.get` + parsing, `List PageResult` for the successive
outcomes of paginated page requests), and `time.sleep` calls are
counted.  Wall-clock timestamps (`datetime.now`) are passed in as an
opaque string parameter or omitted, since real time is not modelled.
-/

namespace Dera

/-- Configuration constants from both scripts. -/
def BATCH_SIZE : Nat := 1000

def MAX_RETRIES : Nat := 3

def RETRY_DELAY : Nat := 5

def REQUEST_TIMEOUT : Nat := 60

/-- A `crs` member of a GeoJSON document, e.g.
`{"type": "name", "properties": {"name": "EPSG:25830"}}`.
`ctype` is the JSON "type" field, `name` the `properties.name` field. -/
structure Crs where
  ctype : String
  name : String
deriving DecidableEq, Repr

/-- One GeoJSON feature: an optional attribute mapping (the
"properties" member; `none` means the key is absent from the record)
and an opaque remainder (geometry and any other members), which the
scripts never inspect or modify.  Attribute values are opaque strings. -/
structure Feature where
  properties : Option (List (String × String))
  geometry : String
deriving DecidableEq, Repr

/-- A parsed JSON feature-collection document, as produced by
`response.json()` or built by the scripts.  `none` in a field means
the corresponding key is absent from the dictionary. -/
structure FCDoc where
  ftype : Option String
  features : Option (List Feature)
  crs : Option Crs
  numberMatched : Option Nat
  source : Option String
deriving DecidableEq, Repr

/-- `{"type": "FeatureCollection", "features": []}` — the value
`fetch_wfs` returns after exhausting all retries
(download_dera_actions.py line 117). -/
def emptyFC : FCDoc :=
  { ftype := some "FeatureCollection", features := some [], crs := none,
    numberMatched := none, source := none }

/-- Python dict lookup on an association list (keys are unique in a
dict; the first binding wins). -/
def dictGet : List (String × String) → String → Option String
  | [], _ => none
  | (k0, v0) :: rest, k => if k0 = k then some v0 else dictGet rest k

/-- Python dict item assignment `d[k] = v`: overwrite the existing
binding in place, or append a new binding at the end. -/
def dictSet : List (String × String) → String → String → List (String × String)
  | [], k, v => [(k, v)]
  | (k0, v0) :: rest, k, v =>
      if k0 = k then (k0, v) :: rest else (k0, v0) :: dictSet rest k v

/-- One layer entry of `WFS_LAYERS`: `(url, layer, desc)`
(download_dera_actions.py lines 33-66). -/
structure LayerDesc where
  url : String
  layer : String
  desc : String
deriving DecidableEq, Repr

/-- Outcome of one `requests.get(...)` + `raise_for_status` +
`response.json()` attempt inside `fetch_wfs`.  The four non-`ok`
constructors are exactly the exception classes caught at
download_dera_actions.py lines 103-110 (`Timeout`, `HTTPError`,
`RequestException`, `json.JSONDecodeError`). -/
inductive AttemptOutcome where
  | ok (body : FCDoc)
  | timeout
  | httpError (status : Nat)
  | netError
  | badJson
deriving DecidableEq, Repr

/-- Whether an attempt succeeded (reached the `return data` line). -/
def AttemptOutcome.isOk : AttemptOutcome → Bool
  | .ok _ => true
  | _ => false

/-- The query parameters `fetch_wfs` builds
(download_dera_actions.py lines 81-88). -/
structure WfsActionParams where
  SERVICE : String
  VERSION : String
  REQUEST : String
  TYPENAME : String
  OUTPUTFORMAT : String
  SRSNAME : String
deriving DecidableEq, Repr

/-- The params dictionary of `fetch_wfs` for a given layer. -/
def fetchWfsParams (layer : String) : WfsActionParams :=
  { SERVICE := "WFS", VERSION := "2.0.0", REQUEST := "GetFeature",
    TYPENAME := layer, OUTPUTFORMAT := "application/json",
    SRSNAME := "EPSG:25830" }

/-- Result of a `fetch_wfs` call: the returned document, the number of
`requests.get` calls made, the number of `time.sleep(RETRY_DELAY)`
calls, and the feature count computed (and logged) on the successful
attempt, if any (download_dera_actions.py line 99). -/
structure FetchWfsOut where
  result : FCDoc
  attempts : Nat
  sleeps : Nat
  okCount : Option Nat
deriving DecidableEq, Repr

/-- The retry loop body of `fetch_wfs`
(download_dera_actions.py lines 92-117).  `att i` is the outcome of
attempt number `i`; `attempt` is the current attempt number and
`remaining` the number of loop iterations left in
`range(1, MAX_RETRIES + 1)`. -/
def fetchWfsGo (att : Nat → AttemptOutcome) : Nat → Nat → FetchWfsOut
  | _, 0 =>
      -- loop exhausted: return {"type": "FeatureCollection", "features": []}
      { result := emptyFC, attempts := 0, sleeps := 0, okCount := none }
  | attempt, r + 1 =>
      match att attempt with
      | .ok body =>
          { result := body, attempts := 1, sleeps := 0,
            okCount := some (body.features.getD []).length }
      | _ =>
          -- exception caught; sleep RETRY_DELAY if attempt < MAX_RETRIES
          let rest := fetchWfsGo att (attempt + 1) r
          { result := rest.result, attempts := rest.attempts + 1,
            sleeps := rest.sleeps + (if attempt < MAX_RETRIES then 1 else 0),
            okCount := rest.okCount }

/-- `fetch_wfs(url, layer)` (download_dera_actions.py lines 79-117),
abstracted over the attempt oracle `att`. -/
def fetch_wfs (att : Nat → AttemptOutcome) : FetchWfsOut :=
  fetchWfsGo att 1 MAX_RETRIES

/-!
`merge_features` (download_dera_actions.py lines 120-143).  The
remote interactions are abstracted by an environment `env` assigning
to each layer descriptor its per-attempt outcome oracle; the source's
`fetch_wfs(url, layer)` call becomes `fetch_wfs (env l)`.
-/

/-- The provenance mutation applied to each feature
(download_dera_actions.py lines 129-132): create the "properties"
mapping if the key is absent, then assign `properties["_source"]`. -/
def setSource (f : Feature) (desc : String) : Feature :=
  let props := f.properties.getD []
  { f with properties := some (dictSet props "_source" desc) }

/-- The features `data.get("features", [])` a layer's fetch yields
(download_dera_actions.py line 126). -/
def layerFeatureList (env : LayerDesc → Nat → AttemptOutcome)
    (l : LayerDesc) : List Feature :=
  ((fetch_wfs (env l)).result.features).getD []

/-- One iteration of the `for url, layer, desc in layers` loop: the
layer's tagged features that get `extend`ed onto `all_features`. -/
def mergeLayer (env : LayerDesc → Nat → AttemptOutcome)
    (l : LayerDesc) : List Feature :=
  (layerFeatureList env l).map (fun f => setSource f l.desc)

/-- `merge_features(layers)` (download_dera_actions.py lines 120-143):
fetch every layer, tag each feature with its descriptor's `desc`,
concatenate, and wrap in a FeatureCollection stamped with the constant
EPSG:25830 crs. -/
def merge_features (env : LayerDesc → Nat → AttemptOutcome)
    (layers : List LayerDesc) : FCDoc :=
  { ftype := some "FeatureCollection",
    features := some (layers.flatMap (mergeLayer env)),
    crs := some { ctype := "name", name := "EPSG:25830" },
    numberMatched := none, source := none }

/-- `save_geojson(data, filename)` (download_dera_actions.py lines
146-157): the document is serialized verbatim; the function returns
`len(data.get("features", []))`.  File I/O and byte sizes are not
modelled; the written document is `data` itself. -/
def save_geojson (data : FCDoc) : Nat :=
  ((data.features).getD []).length

/-- The run summary written by `update_metadata`
(download_dera_actions.py lines 160-175). -/
structure Metadata where
  lastUpdate : String
  source : String
  crs : String
  layers : List (String × Nat)
  totalFeatures : Nat
deriving DecidableEq, Repr

/-- `update_metadata(stats)` (download_dera_actions.py lines 160-175),
with the `datetime.now().isoformat()` timestamp passed in as `now`. -/
def update_metadata (now : String) (stats : List (String × Nat)) : Metadata :=
  { lastUpdate := now, source := "IDEAndalucía DERA WFS",
    crs := "EPSG:25830", layers := stats,
    totalFeatures := (stats.map (fun p => p.2)).sum }

/-- The `WFS_LAYERS` configuration table
(download_dera_actions.py lines 33-66). -/
def WFS_LAYERS : List (String × List LayerDesc) :=
  [ ("health",
      [ { url := "https://www.ideandalucia.es/services/DERA_g12_servicios/wfs",
          layer := "DERA_g12_servicios:g12_01_CentroSalud", desc := "CAP" },
        { url := "https://www.ideandalucia.es/services/DERA_g12_servicios/wfs",
          layer := "DERA_g12_servicios:g12_02_Hospital_CAE", desc := "Hospitales" } ]),
    ("security",
      [ { url := "https://www.ideandalucia.es/services/DERA_g12_servicios/wfs",
          layer := "DERA_g12_servicios:g12_26_Policia", desc := "Policía" },
        { url := "https://www.ideandalucia.es/services/DERA_g12_servicios/wfs",
          layer := "DERA_g12_servicios:g12_29_ParqueBomberos", desc := "Bomberos" },
        { url := "https://www.ideandalucia.es/services/DERA_g12_servicios/wfs",
          layer := "DERA_g12_servicios:g12_34_GuardiaCivil", desc := "Guardia Civil" } ]),
    ("education",
      [ { url := "https://www.ideandalucia.es/services/DERA_g12_servicios/wfs",
          layer := "DERA_g12_servicios:g12_05_CentroEducativo", desc := "Centros Educativos" } ]),
    ("municipal",
      [ { url := "https://www.ideandalucia.es/services/DERA_g12_servicios/wfs",
          layer := "DERA_g12_servicios:g12_32_CentrosJuntaAndalucia", desc := "Centros Junta" },
        { url := "https://www.ideandalucia.es/services/DERA_g12_servicios/wfs",
          layer := "DERA_g12_servicios:g12_11_Ayuntamiento", desc := "Ayuntamientos" } ]),
    ("emergency",
      [ { url := "https://www.ideandalucia.es/services/DERA_g12_servicios/wfs",
          layer := "DERA_g12_servicios:g12_35_GestionEmergencias", desc := "Centros Emergencias" } ]),
    ("energy",
      [ { url := "https://www.ideandalucia.es/services/DERA_g10_infra_energetica/wfs",
          layer := "DERA_g10_infra_energetica:g10_02_ParqueEolico", desc := "Parques Eólicos" } ]) ]

/-- The `stats` dictionary `main` accumulates
(download_dera_actions.py lines 186-192): one entry per category, in
configuration order, holding the count `save_geojson` returned for the
merged collection of that category's layers. -/
def runStats (env : LayerDesc → Nat → AttemptOutcome) : List (String × Nat) :=
  WFS_LAYERS.map (fun cl => (cl.1, save_geojson (merge_features env cl.2)))

/-- The grand total `main` sums over `stats.items()`
(download_dera_actions.py lines 197-200). -/
def mainTotal (env : LayerDesc → Nat → AttemptOutcome) : Nat :=
  ((runStats env).map (fun p => p.2)).sum

/-- The process exit code of `main`
(download_dera_actions.py lines 203-209): `sys.exit(0)` when
`total > 0`, else `sys.exit(1)`. -/
def mainExitCode (env : LayerDesc → Nat → AttemptOutcome) : Nat :=
  if 0 < mainTotal env then 0 else 1

/-!
The paginated fetcher `fetch_wfs_features` of download_dera.py
(lines 152-200) and its request builder `build_wfs_url`
(lines 132-149).  One page request is one `requests.get` +
`raise_for_status` + `response.json()`; its outcome is either a parsed
document or one of the `requests.exceptions.RequestException`
subclasses caught at line 190 (timeout, HTTP error status, connection
error, malformed JSON body — with requests ≥ 2.27 the JSON decode
error is a `RequestException` too).  The oracle for a whole call is
the list of outcomes of the successive page requests; pagination also
ends if that list is exhausted (the interaction trace describes no
further responses).
-/

/-- The query-string parameters assembled by `build_wfs_url`
(download_dera.py lines 132-149).  `startIndex` and `count` are
stringified in the source; they are kept as `Nat` here. -/
structure WfsParams where
  baseUrl : String
  service : String
  version : String
  request : String
  typeName : String
  outputFormat : String
  srsName : String
  startIndex : Nat
  count : Nat
  cqlFilter : Option String
deriving DecidableEq, Repr

/-- `build_wfs_url(base_url, layer, cql_filter, start_index, count)`
(download_dera.py lines 132-149). -/
def build_wfs_url (baseUrl layer : String) (cqlFilter : Option String)
    (startIndex count : Nat) : WfsParams :=
  { baseUrl := baseUrl, service := "WFS", version := "2.0.0",
    request := "GetFeature", typeName := layer,
    outputFormat := "application/json", srsName := "EPSG:25830",
    startIndex := startIndex, count := count, cqlFilter := cqlFilter }

/-- A transient failure of one page request, i.e. one of the
`requests.exceptions.RequestException` kinds caught at
download_dera.py line 190. -/
inductive PageErr where
  | timeout
  | httpStatus (code : Nat)
  | connError
  | badJson
deriving DecidableEq, Repr

/-- Outcome of one page request in the pagination loop. -/
inductive PageResult where
  | ok (data : FCDoc)
  | err (e : PageErr)
deriving DecidableEq, Repr

/-- The document `fetch_wfs_features` returns
(download_dera.py lines 194-200); the `downloadedAt` wall-clock
timestamp is not modelled. -/
def mkResultDoc (layer : String) (fs : List Feature) : FCDoc :=
  { ftype := some "FeatureCollection", features := some fs, crs := none,
    numberMatched := some fs.length, source := some layer }

/-- Result of a `fetch_wfs_features` call: the returned document, the
requests issued (in order, as built by `build_wfs_url`), and the
number of `time.sleep(0.5)` rate-limiting pauses. -/
structure FetchOut where
  doc : FCDoc
  reqs : List WfsParams
  sleeps : Nat
deriving DecidableEq, Repr

/-- The `while True` pagination loop of `fetch_wfs_features`
(download_dera.py lines 162-192): request a page at `startIndex`,
break on a caught exception, break on an empty `features` list, append
the page, break after a page shorter than `BATCH_SIZE`, otherwise
advance the index by `BATCH_SIZE`, sleep, and continue. -/
def fetchGo (baseUrl layer : String) (cql : Option String)
    (startIndex : Nat) (acc : List Feature) : List PageResult → FetchOut
  | [] => { doc := mkResultDoc layer acc, reqs := [], sleeps := 0 }
  | r :: rest =>
      let req := build_wfs_url baseUrl layer cql startIndex BATCH_SIZE
      match r with
      | .err _ => { doc := mkResultDoc layer acc, reqs := [req], sleeps := 0 }
      | .ok data =>
          let features := (data.features).getD []
          if features.isEmpty then
            { doc := mkResultDoc layer acc, reqs := [req], sleeps := 0 }
          else
            if features.length < BATCH_SIZE then
              { doc := mkResultDoc layer (acc ++ features), reqs := [req],
                sleeps := 0 }
            else
              let out := fetchGo baseUrl layer cql (startIndex + BATCH_SIZE)
                (acc ++ features) rest
              { doc := out.doc, reqs := req :: out.reqs,
                sleeps := out.sleeps + 1 }

/-- `fetch_wfs_features(url, layer, description, cql_filter)`
(download_dera.py lines 152-200), abstracted over the trace of page
outcomes.  `description` only feeds `print` and is omitted. -/
def fetch_wfs_features (baseUrl layer : String) (cql : Option String)
    (trace : List PageResult) : FetchOut :=
  fetchGo baseUrl layer cql 0 [] trace

/-- `fetch_wfs_features` run against an honest server holding the
finite dataset `db` and answering every page request at `startIndex`
with `db[startIndex : startIndex + BATCH_SIZE]`: the page oracle of
the pagination loop instantiated with successful, well-paged
responses.  Returns the accumulated features and the number of page
requests issued. -/
def fetchDbGo (db : List Feature) (startIndex : Nat) (acc : List Feature)
    (reqs : Nat) : List Feature × Nat :=
  let features := (db.drop startIndex).take BATCH_SIZE
  if features.isEmpty then (acc, reqs + 1)
  else if h : features.length < BATCH_SIZE then (acc ++ features, reqs + 1)
  else fetchDbGo db (startIndex + BATCH_SIZE) (acc ++ features) (reqs + 1)
termination_by db.length - startIndex
decreasing_by
  simp only [features, List.length_take, List.length_drop, BATCH_SIZE] at h ⊢
  omega

/-- `fetch_wfs_features` against the honest finite server `db`,
from the initial state of the loop. -/
def fetch_wfs_features_db (db : List Feature) : List Feature × Nat :=
  fetchDbGo db 0 [] 0

/-!
Claim-side cursor pagination, written from the specification's words:
"maintain a running offset, starting at 0.  Each round, request
exactly `page size` records starting at the offset; if a round returns
zero records, pagination is complete; if a round returns fewer than
`page size` records, pagination is complete after processing that
round; otherwise advance the offset by `page size`, apply a fixed
inter-request delay, and continue."  A round's input is the list of
records it returns; the output records the requests as
(offset, page size) pairs and counts the delays.
-/

/-- Output of the specification's cursor-pagination algorithm. -/
structure CursorOut where
  records : List Feature
  requests : List (Nat × Nat)
  delays : Nat
deriving DecidableEq, Repr

/-- The specification's cursor-pagination algorithm, one round per
element of the input list. -/
def cursorPaginate (pageSize : Nat) (offset : Nat) (acc : List Feature) :
    List (List Feature) → CursorOut
  | [] => { records := acc, requests := [], delays := 0 }
  | recs :: rest =>
      if recs.length = 0 then
        { records := acc, requests := [(offset, pageSize)], delays := 0 }
      else if recs.length < pageSize then
        { records := acc ++ recs, requests := [(offset, pageSize)],
          delays := 0 }
      else
        let out := cursorPaginate pageSize (offset + pageSize)
          (acc ++ recs) rest
        { records := out.records,
          requests := (offset, pageSize) :: out.requests,
          delays := out.delays + 1 }

/-- A successful page body holding exactly the features `fs`. -/
def pageDoc (fs : List Feature) : FCDoc :=
  { ftype := some "FeatureCollection", features := some fs, crs := none,
    numberMatched := none, source := none }

/-!
Concrete inputs used to instantiate the universally quantified
theorems below on closed data.
-/

/-- A feature with an existing attribute mapping. -/
def fWithProps : Feature := { properties := some [("nombre", "Test")], geometry := "gA" }

/-- A feature whose record has no attribute mapping at all. -/
def fNoProps : Feature := { properties := none, geometry := "gB" }

/-- A response body holding one feature with and one without an
attribute mapping. -/
def bodyTwo : FCDoc :=
  { ftype := some "FeatureCollection", features := some [fWithProps, fNoProps],
    crs := none, numberMatched := none, source := none }

/-- An environment answering every layer's first attempt with `bodyTwo`. -/
def envTwo : LayerDesc → Nat → AttemptOutcome := fun _ _ => .ok bodyTwo

/-- A sample layer descriptor. -/
def lyrA : LayerDesc := { url := "uA", layer := "layerA", desc := "Capa A" }

/-- A second, distinct layer descriptor. -/
def lyrB : LayerDesc := { url := "uB", layer := "layerB", desc := "Capa B" }

/-- An environment where `lyrA` always times out and every other layer
succeeds immediately with `bodyTwo`. -/
def envFailA : LayerDesc → Nat → AttemptOutcome :=
  fun l _ => if l = lyrA then .timeout else .ok bodyTwo

/-- A body whose JSON dictionary has no "features" key at all. -/
def bodyNoKey : FCDoc :=
  { ftype := some "FeatureCollection", features := none, crs := none,
    numberMatched := none, source := none }

/-- An attempt oracle succeeding immediately with `bodyNoKey`. -/
def attNoKey : Nat → AttemptOutcome := fun _ => .ok bodyNoKey

/-- An environment routing every layer to `attNoKey`. -/
def envNoKey : LayerDesc → Nat → AttemptOutcome := fun _ => attNoKey

/-- A body carrying an upstream crs annotation different from the
requested EPSG:25830. -/
def bodyCrs4326 : FCDoc :=
  { ftype := some "FeatureCollection", features := some [fWithProps],
    crs := some { ctype := "name", name := "EPSG:4326" },
    numberMatched := none, source := none }

/-- An environment answering every attempt with `bodyCrs4326`. -/
def envCrs : LayerDesc → Nat → AttemptOutcome := fun _ _ => .ok bodyCrs4326

/-- An environment where exactly the layers described as "CAP" (the
first health layer) succeed with one feature and every other layer
always times out. -/
def envOnlyCap : LayerDesc → Nat → AttemptOutcome :=
  fun l _ => if l.desc = "CAP" then .ok (pageDoc [fWithProps]) else .timeout

/-- An environment where every attempt of every layer times out. -/
def envAllFail : LayerDesc → Nat → AttemptOutcome := fun _ _ => .timeout

/-! Helper lemmas about the retrying single-page fetcher. -/

/-- When every attempt fails transiently, `fetch_wfs` makes all
`MAX_RETRIES` attempts, sleeps between consecutive attempts, and falls
through to the empty-collection return. -/
theorem fetchWfs_allFail (att : Nat → AttemptOutcome)
    (h : ∀ i, (att i).isOk = false) :
    fetch_wfs att =
      { result := emptyFC, attempts := MAX_RETRIES,
        sleeps := MAX_RETRIES - 1, okCount := none } := by
  have h1 := h 1
  have h2 := h 2
  have h3 := h 3
  cases e1 : att 1 <;> cases e2 : att 2 <;> cases e3 : att 3 <;>
    simp [e1, e2, e3, AttemptOutcome.isOk] at h1 h2 h3 <;>
    simp [fetch_wfs, MAX_RETRIES, fetchWfsGo, e1, e2, e3]

/-- When the first attempt succeeds with body `b`, `fetch_wfs` returns
`b` immediately, after a single attempt and no sleep, logging the
defaulted feature count. -/
theorem fetchWfs_firstOk (att : Nat → AttemptOutcome) (b : FCDoc)
    (h : att 1 = .ok b) :
    fetch_wfs att =
      { result := b, attempts := 1, sleeps := 0,
        okCount := some ((b.features).getD []).length } := by
  simp [fetch_wfs, MAX_RETRIES, fetchWfsGo, h]

/-- Claim C2: against an endpoint whose every request fails
transiently (e.g. always times out), `fetch_wfs` makes exactly
`MAX_RETRIES` (3) attempts, with a fixed `RETRY_DELAY` sleep between
consecutive attempts, and then returns the empty feature collection
instead of raising. -/
theorem c2_retry_bound (att : Nat → AttemptOutcome)
    (h : ∀ i, (att i).isOk = false) :
    (fetch_wfs att).attempts = MAX_RETRIES ∧
    (fetch_wfs att).result = emptyFC ∧
    (fetch_wfs att).sleeps = MAX_RETRIES - 1 := by
  rw [fetchWfs_allFail att h]
  exact ⟨rfl, rfl, rfl⟩

/-- Witness for C2: the always-timeout oracle. -/
theorem c2_retry_bound_witness :
    (∀ i, ((fun _ : Nat => AttemptOutcome.timeout) i).isOk = false) ∧
    ((fetch_wfs (fun _ : Nat => AttemptOutcome.timeout)).attempts = MAX_RETRIES ∧
     (fetch_wfs (fun _ : Nat => AttemptOutcome.timeout)).result = emptyFC ∧
     (fetch_wfs (fun _ : Nat => AttemptOutcome.timeout)).sleeps = MAX_RETRIES - 1) :=
  ⟨fun _ => rfl, c2_retry_bound (fun _ : Nat => AttemptOutcome.timeout) (fun _ => rfl)⟩

/-! Association-list (Python dict) lemmas. -/

/-- After `d[k] = v`, looking up `k` yields `v`. -/
theorem dictGet_dictSet_self (m : List (String × String)) (k v : String) :
    dictGet (dictSet m k v) k = some v := by
  induction m with
  | nil => simp [dictSet, dictGet]
  | cons p rest ih =>
      obtain ⟨k0, v0⟩ := p
      by_cases h : k0 = k
      · simp [dictSet, dictGet, h]
      · simp [dictSet, dictGet, h, ih]

/-- After `d[k] = v`, every other key is unchanged. -/
theorem dictGet_dictSet_ne (m : List (String × String)) (k v k' : String)
    (h : k' ≠ k) :
    dictGet (dictSet m k v) k' = dictGet m k' := by
  have hkk : ¬k = k' := fun e => h e.symm
  induction m with
  | nil => simp [dictSet, dictGet, hkk]
  | cons p rest ih =>
      obtain ⟨k0, v0⟩ := p
      by_cases h0 : k0 = k
      · subst h0
        simp [dictSet, dictGet, hkk]
      · simp only [dictSet, if_neg h0, dictGet, ih]

/-- Claim C3: every feature record returned by any layer of a category
appears in the merger's output tagged with that layer descriptor's
label under the "_source" key; the attribute mapping is created when
the record has none, all attributes under other keys are unchanged,
and the rest of the record (geometry) is untouched. -/
theorem c3_provenance_tagging (env : LayerDesc → Nat → AttemptOutcome)
    (layers : List LayerDesc) (l : LayerDesc) (f : Feature)
    (hl : l ∈ layers) (hf : f ∈ layerFeatureList env l) :
    setSource f l.desc ∈ ((merge_features env layers).features).getD [] ∧
    dictGet (((setSource f l.desc).properties).getD []) "_source" = some l.desc ∧
    (∀ k, k ≠ "_source" →
      dictGet (((setSource f l.desc).properties).getD []) k
        = dictGet ((f.properties).getD []) k) ∧
    (setSource f l.desc).geometry = f.geometry ∧
    (f.properties = none →
      (setSource f l.desc).properties = some [("_source", l.desc)]) := by
  refine ⟨?_, ?_, ?_, rfl, ?_⟩
  · simp only [merge_features, Option.getD_some, List.mem_flatMap]
    exact ⟨l, hl, List.mem_map_of_mem _ hf⟩
  · simp [setSource, dictGet_dictSet_self]
  · intro k hk
    simp [setSource, dictGet_dictSet_ne _ _ _ _ hk]
  · intro hp
    simp [setSource, hp, dictSet]

/-- Witness for C3: a one-layer category whose fetch yields one record
with an attribute mapping and one without. -/
theorem c3_provenance_tagging_witness :
    (lyrA ∈ [lyrA]) ∧ (fNoProps ∈ layerFeatureList envTwo lyrA) ∧
    (setSource fNoProps lyrA.desc
        ∈ ((merge_features envTwo [lyrA]).features).getD [] ∧
      dictGet (((setSource fNoProps lyrA.desc).properties).getD []) "_source"
        = some lyrA.desc ∧
      (∀ k, k ≠ "_source" →
        dictGet (((setSource fNoProps lyrA.desc).properties).getD []) k
          = dictGet ((fNoProps.properties).getD []) k) ∧
      (setSource fNoProps lyrA.desc).geometry = fNoProps.geometry ∧
      (fNoProps.properties = none →
        (setSource fNoProps lyrA.desc).properties
          = some [("_source", lyrA.desc)])) :=
  ⟨by decide, by decide,
    c3_provenance_tagging envTwo [lyrA] lyrA fNoProps (by decide) (by decide)⟩

/-- Claim C6: with two descriptors in one category, where the first
fails all retries and the second succeeds with a body holding N
records, the merged collection holds exactly those N records (tagged),
neither zero records nor an error. -/
theorem c6_partial_failure_isolation (env : LayerDesc → Nat → AttemptOutcome)
    (l1 l2 : LayerDesc) (b : FCDoc)
    (hfail : ∀ i, ((env l1) i).isOk = false)
    (hok : env l2 1 = .ok b) :
    ((merge_features env [l1, l2]).features).getD []
      = ((b.features).getD []).map (fun f => setSource f l2.desc) ∧
    (((merge_features env [l1, l2]).features).getD []).length
      = ((b.features).getD []).length := by
  have e1 : layerFeatureList env l1 = [] := by
    simp [layerFeatureList, fetchWfs_allFail (env l1) hfail, emptyFC]
  have e2 : layerFeatureList env l2 = (b.features).getD [] := by
    simp [layerFeatureList, fetchWfs_firstOk (env l2) b hok]
  constructor
  · simp [merge_features, mergeLayer, e1, e2]
  · simp [merge_features, mergeLayer, e1, e2]

/-- Witness for C6: `lyrA` always times out, `lyrB` succeeds with two
records. -/
theorem c6_partial_failure_isolation_witness :
    (∀ i, ((envFailA lyrA) i).isOk = false) ∧
    (envFailA lyrB 1 = .ok bodyTwo) ∧
    (((merge_features envFailA [lyrA, lyrB]).features).getD []
        = ((bodyTwo.features).getD []).map (fun f => setSource f lyrB.desc) ∧
      (((merge_features envFailA [lyrA, lyrB]).features).getD []).length
        = ((bodyTwo.features).getD []).length) :=
  ⟨fun _ => rfl, by decide,
    c6_partial_failure_isolation envFailA lyrA lyrB bodyTwo
      (fun _ => rfl) (by decide)⟩

/-- Claim C10: a successful response whose JSON body lacks the
"features" key entirely is treated as holding zero records everywhere:
`fetch_wfs` returns the body as parsed (logging a count of 0) without
raising, the layer contributes nothing to the merged collection, and
`save_geojson` reports a count of 0 for such a document. -/
theorem c10_missing_features_key (att : Nat → AttemptOutcome) (b : FCDoc)
    (env : LayerDesc → Nat → AttemptOutcome) (l : LayerDesc)
    (h1 : att 1 = .ok b) (h2 : b.features = none) (h3 : env l = att) :
    (fetch_wfs att).result = b ∧
    (fetch_wfs att).okCount = some 0 ∧
    mergeLayer env l = [] ∧
    save_geojson b = 0 := by
  have e := fetchWfs_firstOk att b h1
  refine ⟨by rw [e], ?_, ?_, ?_⟩
  · rw [e]
    simp [h2]
  · simp [mergeLayer, layerFeatureList, h3, e, h2]
  · simp [save_geojson, h2]

/-- Witness for C10: a first-attempt success whose body has no
"features" key. -/
theorem c10_missing_features_key_witness :
    (attNoKey 1 = .ok bodyNoKey) ∧ (bodyNoKey.features = none) ∧
    (envNoKey lyrA = attNoKey) ∧
    ((fetch_wfs attNoKey).result = bodyNoKey ∧
      (fetch_wfs attNoKey).okCount = some 0 ∧
      mergeLayer envNoKey lyrA = [] ∧
      save_geojson bodyNoKey = 0) :=
  ⟨rfl, rfl, rfl,
    c10_missing_features_key attNoKey bodyNoKey envNoKey lyrA rfl rfl rfl⟩

/-- Claim C4: for every run, the written summary holds the stats
mapping verbatim (one key per processed category, in configuration
order, zero-count categories included) and a `totalFeatures` equal to
the sum of the counts `save_geojson` returned in that same run. -/
theorem c4_summary_invariant (now : String)
    (env : LayerDesc → Nat → AttemptOutcome) :
    (update_metadata now (runStats env)).layers = runStats env ∧
    ((runStats env).map (fun p => p.1)) = WFS_LAYERS.map (fun cl => cl.1) ∧
    (update_metadata now (runStats env)).totalFeatures
      = (WFS_LAYERS.map (fun cl => save_geojson (merge_features env cl.2))).sum := by
  refine ⟨rfl, ?_, ?_⟩
  · simp [runStats]
  · simp only [update_metadata, runStats, List.map_map]
    rfl

/-- Counterexample to claim C8 as stated: with `envOnlyCap` the
"education" category (like every non-health category) yields zero
records, yet the process exits with code 0, because the source only
checks that the grand total is positive. -/
theorem c8_counterexample :
    mainExitCode envOnlyCap = 0 ∧ ("education", 0) ∈ runStats envOnlyCap := by
  decide

/-- Claim C8 (amended): the process exits with code 0 exactly when the
grand total of per-category counts is positive; it exits with 1 when
every processed category yields zero records. -/
theorem c8_exit_code (env : LayerDesc → Nat → AttemptOutcome) :
    (mainExitCode env = 0 ↔ 0 < mainTotal env) ∧
    ((∀ p ∈ runStats env, p.2 = 0) → mainExitCode env = 1) := by
  constructor
  · unfold mainExitCode
    split
    next h => simp [h]
    next h => simp [h]
  · intro h
    have ht : mainTotal env = 0 := by
      apply List.sum_eq_zero
      intro x hx
      obtain ⟨p, hp, rfl⟩ := List.mem_map.mp hx
      exact h p hp
    simp [mainExitCode, ht]

/-- Witness for C8 (amended): when every layer of every category times
out on every attempt, every category yields zero records and the exit
code is 1. -/
theorem c8_exit_code_witness :
    (∀ p ∈ runStats envAllFail, p.2 = 0) ∧
    ((mainExitCode envAllFail = 0 ↔ 0 < mainTotal envAllFail) ∧
      ((∀ p ∈ runStats envAllFail, p.2 = 0) → mainExitCode envAllFail = 1)) :=
  ⟨by decide, c8_exit_code envAllFail⟩

/-- Counterexample to claim C9 as stated: a fetched body that carries
the upstream crs annotation EPSG:4326 is merged into an output
collection annotated EPSG:25830 — the written annotation does not
equal the identifier carried by the upstream response. -/
theorem c9_counterexample :
    (fetch_wfs (envCrs lyrA)).result.crs
      = some { ctype := "name", name := "EPSG:4326" } ∧
    (merge_features envCrs [lyrA]).crs
      = some { ctype := "name", name := "EPSG:25830" } ∧
    (merge_features envCrs [lyrA]).crs ≠ (fetch_wfs (envCrs lyrA)).result.crs := by
  decide

/-- Claim C9 (amended): the coordinate-reference annotation written in
every category's output collection is the constant EPSG:25830 — the
same identifier both request builders ask the upstream service for via
their srsName/SRSNAME parameter — and the merger applies no
transformation to the features' geometries; the annotation carried by
the upstream response body itself is not consulted. -/
theorem c9_crs_passthrough (env : LayerDesc → Nat → AttemptOutcome)
    (layers : List LayerDesc) (baseUrl layer : String)
    (cql : Option String) (si c : Nat) :
    (merge_features env layers).crs
      = some { ctype := "name", name := "EPSG:25830" } ∧
    (build_wfs_url baseUrl layer cql si c).srsName = "EPSG:25830" ∧
    (fetchWfsParams layer).SRSNAME = "EPSG:25830" ∧
    (((merge_features env layers).features).getD []).map Feature.geometry
      = (layers.flatMap (layerFeatureList env)).map Feature.geometry := by
  refine ⟨rfl, rfl, rfl, ?_⟩
  simp only [merge_features, Option.getD_some, mergeLayer, List.map_flatMap,
    List.map_map, setSource]
  rfl

/-! Pagination: refinement against the specified cursor algorithm. -/

/-- The pagination loop of `fetch_wfs_features`, run on any sequence
of successfully parsed bodies, coincides round for round with the
specified cursor pagination: same accumulated records, same
(offset, count) requests, same number of inter-request delays. -/
theorem fetchGo_cursor (baseUrl layer : String) (cql : Option String)
    (bodies : List FCDoc) : ∀ (si : Nat) (acc : List Feature),
    (fetchGo baseUrl layer cql si acc (bodies.map PageResult.ok)).doc
      = mkResultDoc layer
          (cursorPaginate BATCH_SIZE si acc
            (bodies.map (fun b => (b.features).getD []))).records ∧
    (fetchGo baseUrl layer cql si acc (bodies.map PageResult.ok)).reqs.map
        (fun p => (p.startIndex, p.count))
      = (cursorPaginate BATCH_SIZE si acc
          (bodies.map (fun b => (b.features).getD []))).requests ∧
    (fetchGo baseUrl layer cql si acc (bodies.map PageResult.ok)).sleeps
      = (cursorPaginate BATCH_SIZE si acc
          (bodies.map (fun b => (b.features).getD []))).delays := by
  induction bodies with
  | nil =>
      intro si acc
      simp [fetchGo, cursorPaginate]
  | cons b rest ih =>
      intro si acc
      by_cases h0 : ((b.features).getD []) = []
      · simp [fetchGo, cursorPaginate, h0, build_wfs_url]
      · by_cases h1 : ((b.features).getD []).length < BATCH_SIZE
        · simp [fetchGo, cursorPaginate, h0, h1, List.isEmpty_iff,
            build_wfs_url]
        · have hlen : ¬((b.features).getD []).length = 0 := by
            simpa [List.length_eq_zero] using h0
          obtain ⟨ihd, ihr, ihs⟩ := ih (si + BATCH_SIZE) (acc ++ (b.features).getD [])
          simp [fetchGo, cursorPaginate, h0, h1, hlen, List.isEmpty_iff,
            build_wfs_url, ihd, ihr, ihs]

/-- Claim C1: for every layer descriptor and every sequence of
successfully parsed page bodies, `fetch_wfs_features` follows the
specified cursor-pagination algorithm: offsets start at 0 and advance
by the page size, every request asks for exactly `BATCH_SIZE = 1000`
records, a zero-record round stops pagination, a short round stops it
after being processed, and each continuing round appends its records
and sleeps once. -/
theorem c1_cursor_pagination (baseUrl layer : String) (cql : Option String)
    (bodies : List FCDoc) :
    BATCH_SIZE = 1000 ∧
    (fetch_wfs_features baseUrl layer cql (bodies.map PageResult.ok)).doc
      = mkResultDoc layer
          (cursorPaginate BATCH_SIZE 0 []
            (bodies.map (fun b => (b.features).getD []))).records ∧
    (fetch_wfs_features baseUrl layer cql (bodies.map PageResult.ok)).reqs.map
        (fun p => (p.startIndex, p.count))
      = (cursorPaginate BATCH_SIZE 0 []
          (bodies.map (fun b => (b.features).getD []))).requests ∧
    (fetch_wfs_features baseUrl layer cql (bodies.map PageResult.ok)).sleeps
      = (cursorPaginate BATCH_SIZE 0 []
          (bodies.map (fun b => (b.features).getD []))).delays := by
  obtain ⟨hd, hr, hs⟩ := fetchGo_cursor baseUrl layer cql bodies 0 []
  exact ⟨rfl, hd, hr, hs⟩

/-! Pagination: failure degrades to the accumulated prefix. -/

/-- Every run of the pagination loop returns a well-formed
feature-collection document (never an error value). -/
theorem fetchGo_total (baseUrl layer : String) (cql : Option String) :
    ∀ (trace : List PageResult) (si : Nat) (acc : List Feature),
    ∃ fs, (fetchGo baseUrl layer cql si acc trace).doc = mkResultDoc layer fs := by
  intro trace
  induction trace with
  | nil => intro si acc; exact ⟨acc, rfl⟩
  | cons r rest ih =>
      intro si acc
      match r with
      | .err e => exact ⟨acc, rfl⟩
      | .ok data =>
          by_cases h0 : ((data.features).getD []).isEmpty
          · exact ⟨acc, by simp [fetchGo, h0]⟩
          · by_cases h1 : ((data.features).getD []).length < BATCH_SIZE
            · exact ⟨acc ++ (data.features).getD [], by simp [fetchGo, h0, h1]⟩
            · obtain ⟨fs, hfs⟩ := ih (si + BATCH_SIZE) (acc ++ (data.features).getD [])
              exact ⟨fs, by simp [fetchGo, h0, h1, hfs]⟩

/-- When every page before the failing one is full, the loop reaches
the failure and returns exactly the accumulated records. -/
theorem fetchGo_err (baseUrl layer : String) (cql : Option String)
    (pages : List (List Feature)) (e : PageErr) (rest : List PageResult) :
    ∀ (si : Nat) (acc : List Feature),
    (∀ p ∈ pages, p.length = BATCH_SIZE) →
    (fetchGo baseUrl layer cql si acc
        (pages.map (fun p => PageResult.ok (pageDoc p))
          ++ PageResult.err e :: rest)).doc.features
      = some (acc ++ pages.flatten) := by
  induction pages with
  | nil =>
      intro si acc _
      simp [fetchGo, mkResultDoc]
  | cons p ps ih =>
      intro si acc hfull
      have hp : p.length = BATCH_SIZE := hfull p (by simp)
      have hne : p.isEmpty = false := by
        cases p with
        | nil => simp [BATCH_SIZE] at hp
        | cons a as => rfl
      have hns : ¬p.length < BATCH_SIZE := by omega
      have ihp := ih (si + BATCH_SIZE) (acc ++ p) (fun q hq => hfull q (by simp [hq]))
      have hstep : (fetchGo baseUrl layer cql si acc
            (((p :: ps).map (fun q => PageResult.ok (pageDoc q)))
              ++ PageResult.err e :: rest)).doc
          = (fetchGo baseUrl layer cql (si + BATCH_SIZE) (acc ++ p)
            ((ps.map (fun q => PageResult.ok (pageDoc q)))
              ++ PageResult.err e :: rest)).doc := by
        simp [fetchGo, pageDoc, hne, hns]
      rw [hstep, ihp]
      simp

/-- Claim C5: the paginated fetcher never surfaces an error — it
always returns a feature-collection document — and when a page fetch
fails after the pages before it were full, it abandons pagination and
returns exactly the records accumulated from the pages that succeeded
before the failure. -/
theorem c5_error_degrades (baseUrl layer : String) (cql : Option String)
    (pages : List (List Feature)) (e : PageErr) (rest : List PageResult)
    (hfull : ∀ p ∈ pages, p.length = BATCH_SIZE) :
    (∀ trace, ∃ fs,
      (fetch_wfs_features baseUrl layer cql trace).doc = mkResultDoc layer fs) ∧
    (fetch_wfs_features baseUrl layer cql
        (pages.map (fun p => PageResult.ok (pageDoc p))
          ++ PageResult.err e :: rest)).doc.features
      = some pages.flatten := by
  constructor
  · intro trace
    exact fetchGo_total baseUrl layer cql trace 0 []
  · simpa using fetchGo_err baseUrl layer cql pages e rest 0 [] hfull

/-- Witness for C5: one full page of 1000 records followed by a
timeout. -/
theorem c5_error_degrades_witness :
    (∀ p ∈ [List.replicate BATCH_SIZE fNoProps], p.length = BATCH_SIZE) ∧
    ((∀ trace, ∃ fs,
        (fetch_wfs_features "u" "layerA" none trace).doc = mkResultDoc "layerA" fs) ∧
      (fetch_wfs_features "u" "layerA" none
          ([List.replicate BATCH_SIZE fNoProps].map
              (fun p => PageResult.ok (pageDoc p))
            ++ PageResult.err PageErr.timeout :: [])).doc.features
        = some ([List.replicate BATCH_SIZE fNoProps]).flatten) :=
  ⟨by simp, c5_error_degrades "u" "layerA" none
    [List.replicate BATCH_SIZE fNoProps] PageErr.timeout [] (by simp)⟩

/-! Pagination against an honest finite server: request count. -/

/-- Exact request count of the pagination loop against the honest
finite server: from start index `si`, it issues
`(db.length - si) / BATCH_SIZE + 1` further page requests. -/
theorem fetchDbGo_reqs (db : List Feature) :
    ∀ (k si : Nat) (acc : List Feature) (r : Nat), db.length - si = k →
    (fetchDbGo db si acc r).2 = r + (db.length - si) / BATCH_SIZE + 1 := by
  intro k
  induction k using Nat.strong_induction_on with
  | _ k ih =>
    intro si acc r hk
    rw [fetchDbGo]
    simp only [BATCH_SIZE] at *
    split
    next hemp =>
      have h0 : ((db.drop si).take 1000).length = 0 := by
        simp [List.isEmpty_iff] at hemp
        simp [hemp]
      simp only [List.length_take, List.length_drop] at h0
      simp only []
      omega
    next hemp =>
      split
      next hshort =>
        simp only [List.length_take, List.length_drop] at hshort
        simp only []
        omega
      next hshort =>
        simp only [List.length_take, List.length_drop] at hshort
        have hge : 1000 ≤ db.length - si := by omega
        rw [ih (db.length - (si + 1000)) (by omega) (si + 1000) _ (r + 1) rfl]
        omega

/-- Counterexample to claim C7 as stated: against an empty dataset
(total = 0) the loop still issues one page request, exceeding
`ceil(total / page size) = 0`. -/
theorem c7_counterexample :
    (fetch_wfs_features_db ([] : List Feature)).2 = 1 ∧
    ¬((fetch_wfs_features_db ([] : List Feature)).2
        ≤ (([] : List Feature).length + BATCH_SIZE - 1) / BATCH_SIZE) := by
  have h : (fetch_wfs_features_db ([] : List Feature)).2 = 1 := by
    have := fetchDbGo_reqs ([] : List Feature) 0 0 [] 0 rfl
    simpa [fetch_wfs_features_db, BATCH_SIZE] using this
  refine ⟨h, ?_⟩
  rw [h]
  decide

/-- Claim C7 (amended): against an honest endpoint holding finitely
many records delivered page by page, pagination terminates (the loop
is a total function of the finite dataset) and issues exactly
`floor(total / page size) + 1` page requests — hence at most
`ceil(total / page size) + 1`. -/
theorem c7_request_bound (db : List Feature) :
    (fetch_wfs_features_db db).2 = db.length / BATCH_SIZE + 1 ∧
    (fetch_wfs_features_db db).2
      ≤ (db.length + BATCH_SIZE - 1) / BATCH_SIZE + 1 := by
  have h := fetchDbGo_reqs db (db.length - 0) 0 [] 0 rfl
  constructor
  · simpa [fetch_wfs_features_db] using h
  · have h2 : (fetch_wfs_features_db db).2 = db.length / BATCH_SIZE + 1 := by
      simpa [fetch_wfs_features_db] using h
    rw [h2]
    have : db.length / BATCH_SIZE ≤ (db.length + BATCH_SIZE - 1) / BATCH_SIZE :=
      Nat.div_le_div_right (by simp [BATCH_SIZE])
    omega

end Dera
